import Mathlib

/-!
Shallow embedding of the niconico-series-feed service (src/index.ts) and
verification of the specification claims about it.

The service is a single linear pipeline: fetch a series page, parse the
embedded initial-state JSON payload, conditionally re-fetch the last page
when the series holds more than 100 items, reverse and truncate the item
list, map items to feed entries and respond with an RSS feed.

Modelling decisions:
  - JavaScript thrown errors are modelled with `Except JsError`.
  - The external `fetch` collaborator is a parameter
    `fetchFn : String → Except JsError String` mapping a URL to a response
    body text; the external HTML parser (cheerio `load`) is a parameter
    `loadFn : String → Document`, where `Document` records exactly the two
    observations the code makes on the loaded markup: the canonical link
    href and the `#js-initial-userpage-data` data attribute.
  - `check` additionally returns the ordered list of URLs passed to
    `fetchFn`, so that claims about how many fetches occur and which pages
    they target are statable.
  - `new Date(s)` is modelled by `JsDate`, which records the string handed
    to the Date constructor (date parsing at runtime is external).
  - Log and trace sinks are purely observational and are not modelled.
-/

namespace NiconicoSeriesFeed

/-- `thumbnail` object of a raw video (src/index.ts, `VideoType`). -/
structure Thumbnail where
  url : String
deriving Repr, DecidableEq

/-- Raw video data inside an item (src/index.ts, `VideoType`). -/
structure VideoType where
  id : String
  title : String
  thumbnail : Thumbnail
  shortDescription : String
  registeredAt : String
deriving Repr, DecidableEq

/-- One element of the paginated item list (src/index.ts, `VideoItemType`).
The `meta` field has TypeScript type `unknown` and is never read. -/
structure VideoItemType where
  meta : Unit
  video : VideoType
deriving Repr, DecidableEq

/-- The `detail` object of the payload (src/index.ts, `InitialData`).
The `owner` field has TypeScript type `unknown` and is never read. -/
structure SeriesDetail where
  id : Int
  owner : Unit
  title : String
  description : String
  decorateDescriptionHtml : String
  thumbnailUrl : String
  isListed : Bool
  createdAt : String
  updatedAt : String
deriving Repr, DecidableEq

/-- The `data` object of one nvapi entry: series detail, total item count
across all pages, and the item slice of the current page (src/index.ts). -/
structure SeriesData where
  detail : SeriesDetail
  totalCount : Nat
  items : List VideoItemType
deriving Repr, DecidableEq

/-- The `query` object of one nvapi entry (src/index.ts, `InitialData`). -/
structure NvapiQuery where
  page : Nat
  pageSize : Nat
  sensitiveContents : String
deriving Repr, DecidableEq

/-- The `meta` object of one nvapi entry body (src/index.ts). -/
structure NvapiMeta where
  status : Nat
deriving Repr, DecidableEq

/-- The `body` object of one nvapi entry (src/index.ts, `InitialData`). -/
structure NvapiBody where
  meta : NvapiMeta
  data : SeriesData
deriving Repr, DecidableEq

/-- One element of the `nvapi` array (src/index.ts, `InitialData`). -/
structure NvapiEntry where
  method : String
  path : String
  templatePath : String
  query : NvapiQuery
  body : NvapiBody
deriving Repr, DecidableEq

/-- The initial-state payload embedded in the page markup
(src/index.ts, `InitialData`). `state` is an empty object type. -/
structure InitialData where
  state : Unit
  nvapi : List NvapiEntry
deriving Repr, DecidableEq

/-- Abstraction of a cheerio-loaded HTML document: the two selector results
the code reads from it. `canonicalHref` is the `href` attribute of
`link[rel="canonical"]` (absent when the tag or attribute is missing);
`initialUserpageData` is the parsed `data-initial-data` attribute of
`#js-initial-userpage-data` (absent when the element or attribute is
missing). -/
structure Document where
  canonicalHref : Option String
  initialUserpageData : Option InitialData
deriving Repr, DecidableEq

/-- src/index.ts `extractCanonicalUrl`: returns the canonical link href,
which may be `undefined` (here `none`); it never throws. -/
def extractCanonicalUrl (body : Document) : Option String :=
  body.canonicalHref

/-- src/index.ts `extractInitialAPIData`: reads the data attribute of
`#js-initial-userpage-data`; `undefined` (here `none`) when absent. -/
def extractInitialAPIData (body : Document) : Option InitialData :=
  body.initialUserpageData

/-- Thrown JavaScript errors relevant to the pipeline.
`noSeriesId` is the `No series id specified` error; `typeError` is the
TypeError raised by a property access on `undefined` when the embedded
payload or its `nvapi[0]` entry is missing.
Modelled from the spec: the Fetcher failure modes (a network error or a
non-success HTTP response on a GET) are external to src/ (the `fetch`
implementation is the cross-fetch library), and are represented by the
`fetchNetworkError` and `fetchHttpError` constructors following the spec
contract for the Fetcher. -/
inductive JsError where
  | noSeriesId
  | typeError
  | fetchNetworkError
  | fetchHttpError (status : Nat)
deriving Repr, DecidableEq

/-- A normalized entry (the return value of src/index.ts `extractEntry`). -/
structure Entry where
  link : String
  title : String
  image : String
  date : String
  description : String
deriving Repr, DecidableEq

/-- src/index.ts `extractEntry`: maps a raw video item to a normalized
entry. -/
def extractEntry (videoItem : VideoItemType) : Entry :=
  let video := videoItem.video
  { link := "https://www.nicovideo.jp/watch/" ++ video.id
    title := video.title
    image := video.thumbnail.url
    date := video.registeredAt
    description := video.shortDescription }

/-- Model of a JavaScript `Date` value: records the string handed to the
`Date` constructor. Parsing of that string at runtime is external. -/
structure JsDate where
  input : String
deriving Repr, DecidableEq

/-- `new Date(s)`. -/
def newDate (s : String) : JsDate :=
  ⟨s⟩

/-- The options record passed to the `Feed` constructor (feed library). -/
structure FeedOptions where
  title : String
  description : String
  id : String
  link : String
  copyright : String
deriving Repr, DecidableEq

/-- The record passed to `feed.addItem` (feed library). -/
structure FeedItem where
  title : String
  id : String
  link : String
  description : String
  content : String
  image : String
  date : JsDate
deriving Repr, DecidableEq

/-- A feed object: construction options plus the items added so far. -/
structure Feed where
  options : FeedOptions
  items : List FeedItem
deriving Repr, DecidableEq

/-- `feed.addItem(item)` appends the item. -/
def Feed.addItem (f : Feed) (item : FeedItem) : Feed :=
  { f with items := f.items ++ [item] }

/-- The body sent on the HTTP response: plain text, or the RSS 2.0
serialization of a feed object (`feed.rss2()`; the XML serializer is the
external feed library, so the body is modelled by the feed object it
serializes). -/
inductive ResponseBody where
  | text (s : String)
  | rss2 (f : Feed)
deriving Repr, DecidableEq

/-- The HTTP response sent via `res.status(...).send(...)`. -/
structure Response where
  status : Nat
  body : ResponseBody
deriving Repr, DecidableEq

/-- The feed items carried by a response, empty for a plain-text body. -/
def Response.feedItems (r : Response) : List FeedItem :=
  match r.body with
  | .rss2 f => f.items
  | .text _ => []

/-- JavaScript nullish coalescing `a ?? b` on the optionally-chained
query parameter and the environment fallback (src/index.ts line 108). -/
def nullishCoalesce (queryValue fallback : Option String) : Option String :=
  match queryValue with
  | some s => some s
  | none => fallback

/-- URL of the first fetch: `https://www.nicovideo.jp/series/` followed by
the series id (src/index.ts line 115). -/
def seriesPageUrl (seriesId : String) : String :=
  "https://www.nicovideo.jp/series/" ++ seriesId

/-- Last page number computation (src/index.ts lines 134-135):
`Math.floor(seriesCount / 100)`, incremented when `seriesCount % 100 != 0`. -/
def lastPageNo (seriesCount : Nat) : Nat :=
  let pageNo := seriesCount / 100
  if seriesCount % 100 ≠ 0 then pageNo + 1 else pageNo

/-- JavaScript template-literal stringification of a `string | undefined`
value: `undefined` renders as the text `undefined`. -/
def jsTemplateOptionString : Option String → String
  | some s => s
  | none => "undefined"

/-- URL of the second fetch (src/index.ts line 139). -/
def rePageUrl (canonicalUrl : Option String) (pageNo : Nat) : String :=
  jsTemplateOptionString canonicalUrl ++ "?page=" ++ toString pageNo

/-- `extractInitialAPIData($)` followed by `initialData.nvapi[0].body.data`
(src/index.ts lines 124-125 and 149-150): a missing payload or an empty
`nvapi` array makes the property access throw a TypeError. -/
def nvapiFirstData (doc : Document) : Except JsError SeriesData :=
  match extractInitialAPIData doc with
  | none => .error .typeError
  | some initialData =>
    match initialData.nvapi.head? with
    | none => .error .typeError
    | some firstEntry => .ok firstEntry.body.data

/-- Entry construction (src/index.ts lines 163-166):
`data.items.reverse().slice(0, 20).map(extractEntry)`. -/
def buildEntries (items : List VideoItemType) : List Entry :=
  (items.reverse.take 20).map extractEntry

/-- The feed item record built per entry inside the `forEach`
(src/index.ts lines 187-197). `entry.link ?? ""` collapses to
`entry.link` because the link is never nullish. -/
def mkFeedItem (entry : Entry) : FeedItem :=
  { title := entry.title
    id := entry.link
    link := entry.link
    description := entry.description
    content := entry.link
    image := entry.image
    date := newDate entry.date }

/-- The tail of `check` after pagination resolves (src/index.ts lines
155-207): build entries from the final data, answer 404 when none were
found, otherwise build the feed and answer 200 with its RSS body. -/
def checkFinish (seriesId : String) (data : SeriesData) : Response :=
  let feedTitle := data.detail.title
  let entries := buildEntries data.items
  if entries.length = 0 then
    { status := 404, body := .text "No entries found" }
  else
    let feed : Feed :=
      { options :=
          { title := feedTitle
            description := feedTitle
            id := ""
            link := seriesPageUrl seriesId
            copyright := "" }
        items := [] }
    let feed := entries.foldl (fun f entry => f.addItem (mkFeedItem entry)) feed
    { status := 200, body := .rss2 feed }

/-- src/index.ts `check` (lines 107-208). Returns the response sent (or
the thrown error) together with the ordered list of URLs passed to
`fetchFn`. -/
def check (fetchFn : String → Except JsError String) (loadFn : String → Document)
    (reqQuerySeriesId : Option String) (envSeriesId : Option String) :
    Except JsError Response × List String :=
  match nullishCoalesce reqQuerySeriesId envSeriesId with
  | none => (.error .noSeriesId, [])
  | some seriesId =>
    if seriesId = "" then (.error .noSeriesId, [])
    else
      let url1 := seriesPageUrl seriesId
      match fetchFn url1 with
      | .error e => (.error e, [url1])
      | .ok body =>
        let doc := loadFn body
        match nvapiFirstData doc with
        | .error e => (.error e, [url1])
        | .ok data0 =>
          let canonicalUrl := extractCanonicalUrl doc
          let seriesCount := data0.totalCount
          if 100 < seriesCount then
            let url2 := rePageUrl canonicalUrl (lastPageNo seriesCount)
            match fetchFn url2 with
            | .error e => (.error e, [url1, url2])
            | .ok body2 =>
              match nvapiFirstData (loadFn body2) with
              | .error e => (.error e, [url1, url2])
              | .ok data => (.ok (checkFinish seriesId data), [url1, url2])
          else (.ok (checkFinish seriesId data0), [url1])

/-- The uniform 500 response sent by the top-level catch
(src/index.ts line 225). -/
def genericErrorResponse : Response :=
  { status := 500, body := .text "something went wrong. please check logs" }

/-- src/index.ts `scrape` (lines 213-227): run `check` and turn any thrown
error into the generic 500 response. -/
def scrape (fetchFn : String → Except JsError String) (loadFn : String → Document)
    (reqQuerySeriesId : Option String) (envSeriesId : Option String) :
    Response × List String :=
  match check fetchFn loadFn reqQuerySeriesId envSeriesId with
  | (.ok r, urls) => (r, urls)
  | (.error _, urls) => (genericErrorResponse, urls)

/-- The `scrape` of the earlier revision src/unnamed/part_001 (lines
194-201): there `check(req, res)` is invoked WITHOUT await inside the
try/catch. A throw inside an async function only rejects its promise, so
with the call unawaited the rejection escapes the try/catch, the catch
block never runs and no 500 is sent: in the error case this code path
sends no response at all (`none`). The responses `check` sends itself
(200/404) still occur, as does its fetching. -/
def scrapeUnawaited (fetchFn : String → Except JsError String)
    (loadFn : String → Document)
    (reqQuerySeriesId : Option String) (envSeriesId : Option String) :
    Option Response × List String :=
  match check fetchFn loadFn reqQuerySeriesId envSeriesId with
  | (.ok r, urls) => (some r, urls)
  | (.error _, urls) => (none, urls)

/-- Sample raw video, for concrete evaluations. -/
def sampleVideo (n : Nat) : VideoType :=
  { id := "sm" ++ toString n
    title := "video " ++ toString n
    thumbnail := ⟨"https://img.example/" ++ toString n⟩
    shortDescription := "desc " ++ toString n
    registeredAt := "2024-01-01T00:00:0" ++ toString n ++ "+09:00" }

/-- Sample item wrapping `sampleVideo`. -/
def sampleItem (n : Nat) : VideoItemType :=
  { meta := (), video := sampleVideo n }

/-- Sample series detail. -/
def sampleDetail : SeriesDetail :=
  { id := 1
    owner := ()
    title := "My Series"
    description := "d"
    decorateDescriptionHtml := ""
    thumbnailUrl := ""
    isListed := true
    createdAt := ""
    updatedAt := "" }

/-- Sample series data with a given total count and item list. -/
def sampleData (tc : Nat) (items : List VideoItemType) : SeriesData :=
  { detail := sampleDetail, totalCount := tc, items := items }

/-- Sample initial-state payload holding a single nvapi entry. -/
def sampleInitialData (d : SeriesData) : InitialData :=
  { state := ()
    nvapi := [{ method := "GET"
                path := "/v1/series"
                templatePath := "/v1/series"
                query := { page := 1, pageSize := 100, sensitiveContents := "mask" }
                body := { meta := { status := 200 }, data := d } }] }

/-- Sample document carrying a canonical href and a payload. -/
def sampleDoc (canonical : Option String) (d : SeriesData) : Document :=
  { canonicalHref := canonical
    initialUserpageData := some (sampleInitialData d) }

/-! ## Helper lemmas -/

/-- Taking from a reversed list is dropping from the front and reversing. -/
theorem reverse_take_eq {α : Type} (l : List α) (n : Nat) :
    l.reverse.take n = (l.drop (l.length - n)).reverse := by
  have h := List.rtake_eq_reverse_take_reverse l n
  rw [List.rtake] at h
  rw [h, List.reverse_reverse]

/-- Folding `Feed.addItem` over a list of entries appends the mapped
items. -/
theorem feed_foldl_addItem (entries : List Entry) (f : Feed) :
    (entries.foldl (fun acc entry => acc.addItem (mkFeedItem entry)) f).items
      = f.items ++ entries.map mkFeedItem := by
  induction entries generalizing f with
  | nil => simp
  | cons e es ih =>
    rw [List.foldl_cons, ih]
    simp [Feed.addItem]

/-- The items of the response built by `checkFinish` are exactly the built
entries mapped to feed items (empty in the 404 case). -/
theorem checkFinish_feedItems (seriesId : String) (data : SeriesData) :
    (checkFinish seriesId data).feedItems
      = (buildEntries data.items).map mkFeedItem := by
  unfold checkFinish
  by_cases h : (buildEntries data.items).length = 0
  · rw [List.length_eq_zero] at h
    simp [h, Response.feedItems]
  · simp only [h, if_false, if_neg h]
    simp [Response.feedItems, feed_foldl_addItem]

/-- Behaviour of `check` once the series id resolves and the first fetch
and parse succeed: it branches on the total count exactly as the source
does. -/
theorem check_eq_of_parsed (fetchFn : String → Except JsError String)
    (loadFn : String → Document) (q env : Option String)
    (sid body : String) (data0 : SeriesData)
    (hsid : nullishCoalesce q env = some sid) (hne : sid ≠ "")
    (hfetch : fetchFn (seriesPageUrl sid) = .ok body)
    (hparse : nvapiFirstData (loadFn body) = .ok data0) :
    check fetchFn loadFn q env =
      if 100 < data0.totalCount then
        match fetchFn (rePageUrl (extractCanonicalUrl (loadFn body))
            (lastPageNo data0.totalCount)) with
        | .error e =>
          (.error e, [seriesPageUrl sid,
            rePageUrl (extractCanonicalUrl (loadFn body)) (lastPageNo data0.totalCount)])
        | .ok body2 =>
          match nvapiFirstData (loadFn body2) with
          | .error e =>
            (.error e, [seriesPageUrl sid,
              rePageUrl (extractCanonicalUrl (loadFn body)) (lastPageNo data0.totalCount)])
          | .ok data =>
            (.ok (checkFinish sid data), [seriesPageUrl sid,
              rePageUrl (extractCanonicalUrl (loadFn body)) (lastPageNo data0.totalCount)])
      else (.ok (checkFinish sid data0), [seriesPageUrl sid]) := by
  unfold check
  rw [hsid]
  simp only [hne, if_false, hfetch, hparse]

/-! ## Claim theorems -/

/-- C1: for every payload (first fetch and parse succeeded), a second
fetch occurs if and only if totalCount > 100; when it occurs it is exactly
one fetch, targeting page `ceil(totalCount / 100)`; the implementation
rule `floor(totalCount/100)` incremented by 1 when `totalCount % 100 ≠ 0`
equals `ceil(totalCount/100)` for every totalCount > 100; and
totalCount = 250 yields page 3. -/
theorem claim_C1 (fetchFn : String → Except JsError String)
    (loadFn : String → Document) (q env : Option String)
    (sid body : String) (data0 : SeriesData)
    (hsid : nullishCoalesce q env = some sid) (hne : sid ≠ "")
    (hfetch : fetchFn (seriesPageUrl sid) = .ok body)
    (hparse : nvapiFirstData (loadFn body) = .ok data0) :
    ((check fetchFn loadFn q env).2.length = 2 ↔ 100 < data0.totalCount)
    ∧ (100 < data0.totalCount →
        (check fetchFn loadFn q env).2
          = [seriesPageUrl sid,
             rePageUrl (extractCanonicalUrl (loadFn body)) (lastPageNo data0.totalCount)])
    ∧ (∀ tc : Nat, 100 < tc → lastPageNo tc = (tc + 99) / 100)
    ∧ lastPageNo 250 = 3 := by
  rw [check_eq_of_parsed fetchFn loadFn q env sid body data0 hsid hne hfetch hparse]
  refine ⟨?_, ?_, ?_, by decide⟩
  · by_cases h : 100 < data0.totalCount
    · rw [if_pos h]
      refine ⟨fun _ => h, fun _ => ?_⟩
      split
      · rfl
      · split <;> rfl
    · rw [if_neg h]
      simp [h]
  · intro h
    rw [if_pos h]
    split
    · rfl
    · split <;> rfl
  · intro tc htc
    unfold lastPageNo
    by_cases hr : tc % 100 = 0 <;> simp only [hr, ne_eq, not_true_eq_false,
      not_false_eq_true, if_true, if_false, ite_true, ite_false] <;> omega

/-- Witness for C1 at a concrete run with totalCount 250: the trace shows
exactly one second fetch, targeting page 3. -/
theorem claim_C1_witness :
    (check (fun _ => .ok "page1")
        (fun _ => sampleDoc (some "https://nico.example/c") (sampleData 250 [sampleItem 1]))
        (some "s1") none).2
      = [seriesPageUrl "s1", rePageUrl (some "https://nico.example/c") 3] :=
  (claim_C1 (fun _ => .ok "page1")
      (fun _ => sampleDoc (some "https://nico.example/c") (sampleData 250 [sampleItem 1]))
      (some "s1") none "s1" "page1" (sampleData 250 [sampleItem 1])
      rfl (by decide) rfl rfl).2.1 (by decide)

/-- C2: for every item list of length L ≥ 1, the emitted entry count is
min(20, L), the emitted order is the reverse of the source order truncated
to 20 (the last 20 source items in reverse), and the list [v1, v2, v3]
yields entries mapped from [v3, v2, v1] in that order. -/
theorem claim_C2 (items : List VideoItemType) (h : 1 ≤ items.length) :
    (buildEntries items).length = min 20 items.length
    ∧ buildEntries items
        = ((items.drop (items.length - 20)).reverse).map extractEntry
    ∧ ∀ v1 v2 v3 : VideoItemType,
        buildEntries [v1, v2, v3]
          = [extractEntry v3, extractEntry v2, extractEntry v1] := by
  refine ⟨?_, ?_, fun v1 v2 v3 => rfl⟩
  · simp [buildEntries]
  · rw [buildEntries, reverse_take_eq]

/-- Witness for C2 on a concrete three-item list. -/
theorem claim_C2_witness :
    (buildEntries [sampleItem 1, sampleItem 2, sampleItem 3]).length
      = min 20 [sampleItem 1, sampleItem 2, sampleItem 3].length :=
  (claim_C2 [sampleItem 1, sampleItem 2, sampleItem 3] (by decide)).1

/-- C3 as stated is false: the emitted entry count is min(20, L) where L
is the length of the item list actually present, not min(20, totalCount).
A payload reporting totalCount = 50 while carrying only 3 items emits 3
entries, not min(20, 50) = 20. -/
theorem claim_C3_counterexample :
    Except.map (fun r => r.feedItems.length)
        (check (fun _ => .ok "b")
          (fun _ => sampleDoc (some "https://nico.example/c")
            (sampleData 50 [sampleItem 1, sampleItem 2, sampleItem 3]))
          (some "s") none).1
      = .ok 3
    ∧ (3 : Nat) ≠ min 20 50 := by
  refine ⟨?_, by decide⟩
  rfl

/-- C3 amended: for every payload with totalCount ≤ 100 whose item list
length equals totalCount, no second fetch occurs, the emitted entries come
only from the item list of the first page (newest-first, i.e. source order
reversed then truncated), and their count equals min(20, totalCount). -/
theorem claim_C3 (fetchFn : String → Except JsError String)
    (loadFn : String → Document) (q env : Option String)
    (sid body : String) (data0 : SeriesData)
    (hsid : nullishCoalesce q env = some sid) (hne : sid ≠ "")
    (hfetch : fetchFn (seriesPageUrl sid) = .ok body)
    (hparse : nvapiFirstData (loadFn body) = .ok data0)
    (hle : data0.totalCount ≤ 100)
    (hlen : data0.items.length = data0.totalCount) :
    (check fetchFn loadFn q env).2 = [seriesPageUrl sid]
    ∧ (check fetchFn loadFn q env).1 = .ok (checkFinish sid data0)
    ∧ Except.map Response.feedItems (check fetchFn loadFn q env).1
        = .ok ((buildEntries data0.items).map mkFeedItem)
    ∧ (buildEntries data0.items).length = min 20 data0.totalCount := by
  rw [check_eq_of_parsed fetchFn loadFn q env sid body data0 hsid hne hfetch hparse]
  rw [if_neg (by omega)]
  refine ⟨rfl, rfl, ?_, ?_⟩
  · simp [Except.map, checkFinish_feedItems]
  · rw [← hlen]
    simp [buildEntries]

/-- Witness for C3 (amended) on a concrete consistent payload with
totalCount = 3 and 3 items. -/
theorem claim_C3_witness :
    (check (fun _ => .ok "b")
        (fun _ => sampleDoc (some "https://nico.example/c")
          (sampleData 3 [sampleItem 1, sampleItem 2, sampleItem 3]))
        (some "s") none).2
      = [seriesPageUrl "s"] :=
  (claim_C3 (fun _ => .ok "b")
      (fun _ => sampleDoc (some "https://nico.example/c")
        (sampleData 3 [sampleItem 1, sampleItem 2, sampleItem 3]))
      (some "s") none "s" "b"
      (sampleData 3 [sampleItem 1, sampleItem 2, sampleItem 3])
      rfl (by decide) rfl rfl (by decide) (by decide)).1

/-- C4: the raw-item to entry mapping sets link to
`https://www.nicovideo.jp/watch/` followed by the item id, title to the
item title, image to the item thumbnail URL, date to the registration
timestamp, and description to the short description; and each entry
becomes a feed item with id = link, content = link, and publication date
the Date parsed from the entry date. -/
theorem claim_C4 (videoItem : VideoItemType) (entry : Entry) :
    (extractEntry videoItem).link
        = "https://www.nicovideo.jp/watch/" ++ videoItem.video.id
    ∧ (extractEntry videoItem).title = videoItem.video.title
    ∧ (extractEntry videoItem).image = videoItem.video.thumbnail.url
    ∧ (extractEntry videoItem).date = videoItem.video.registeredAt
    ∧ (extractEntry videoItem).description = videoItem.video.shortDescription
    ∧ (mkFeedItem entry).id = entry.link
    ∧ (mkFeedItem entry).content = entry.link
    ∧ (mkFeedItem entry).date = newDate entry.date :=
  ⟨rfl, rfl, rfl, rfl, rfl, rfl, rfl, rfl⟩

/-- C5: when a refetch occurs (totalCount > 100) only the refreshed
second-page data is used and the payload of the first page is discarded: two
runs that differ only in the payload of the first page but agree on its
totalCount, on the canonical URL and on the second-page response produce
identical results (same response, same fetch trace). -/
theorem claim_C5 (f1 f2 : String → Except JsError String)
    (l1 l2 : String → Document) (q env : Option String)
    (sid b1 b2 : String) (d1 d2 : SeriesData)
    (hsid : nullishCoalesce q env = some sid) (hne : sid ≠ "")
    (hf1 : f1 (seriesPageUrl sid) = .ok b1)
    (hf2 : f2 (seriesPageUrl sid) = .ok b2)
    (hp1 : nvapiFirstData (l1 b1) = .ok d1)
    (hp2 : nvapiFirstData (l2 b2) = .ok d2)
    (hcanon : extractCanonicalUrl (l1 b1) = extractCanonicalUrl (l2 b2))
    (htc : d1.totalCount = d2.totalCount)
    (hbig : 100 < d1.totalCount)
    (hurl2 : f1 (rePageUrl (extractCanonicalUrl (l1 b1)) (lastPageNo d1.totalCount))
        = f2 (rePageUrl (extractCanonicalUrl (l1 b1)) (lastPageNo d1.totalCount)))
    (hload2 : ∀ s, f1 (rePageUrl (extractCanonicalUrl (l1 b1)) (lastPageNo d1.totalCount))
        = .ok s → l1 s = l2 s) :
    check f1 l1 q env = check f2 l2 q env := by
  rw [check_eq_of_parsed f1 l1 q env sid b1 d1 hsid hne hf1 hp1,
    check_eq_of_parsed f2 l2 q env sid b2 d2 hsid hne hf2 hp2]
  rw [if_pos hbig, if_pos (htc ▸ hbig)]
  rw [← htc, ← hcanon, ← hurl2]
  cases hres : f1 (rePageUrl (extractCanonicalUrl (l1 b1)) (lastPageNo d1.totalCount)) with
  | error e => rfl
  | ok s => simp only [hload2 s hres]

/-- Witness for C5: two concrete runs whose first-page payloads carry
different item lists (but the same totalCount 150) and whose second pages
coincide give the same result. -/
theorem claim_C5_witness :
    check
        (fun u => if u = seriesPageUrl "s" then .ok "p1A" else .ok "last")
        (fun s => if s = "p1A"
          then sampleDoc (some "https://nico.example/c") (sampleData 150 [sampleItem 1])
          else sampleDoc (some "https://nico.example/c") (sampleData 150 [sampleItem 3]))
        (some "s") none
      = check
        (fun u => if u = seriesPageUrl "s" then .ok "p1B" else .ok "last")
        (fun s => if s = "p1B"
          then sampleDoc (some "https://nico.example/c") (sampleData 150 [sampleItem 2])
          else sampleDoc (some "https://nico.example/c") (sampleData 150 [sampleItem 3]))
        (some "s") none :=
  claim_C5
    (fun u => if u = seriesPageUrl "s" then .ok "p1A" else .ok "last")
    (fun u => if u = seriesPageUrl "s" then .ok "p1B" else .ok "last")
    (fun s => if s = "p1A"
      then sampleDoc (some "https://nico.example/c") (sampleData 150 [sampleItem 1])
      else sampleDoc (some "https://nico.example/c") (sampleData 150 [sampleItem 3]))
    (fun s => if s = "p1B"
      then sampleDoc (some "https://nico.example/c") (sampleData 150 [sampleItem 2])
      else sampleDoc (some "https://nico.example/c") (sampleData 150 [sampleItem 3]))
    (some "s") none "s" "p1A" "p1B"
    (sampleData 150 [sampleItem 1]) (sampleData 150 [sampleItem 2])
    rfl (by decide) rfl rfl rfl rfl
    rfl rfl (by decide) rfl
    (by
      intro s hs
      have hs2 : (Except.ok "last" : Except JsError String) = Except.ok s := hs
      injection hs2 with h
      subst h
      rfl)

/-- C6: when the final item list is empty the response is status 404 with
body exactly `No entries found`, and no feed object is constructed (the
body is plain text, not a feed serialization). -/
theorem claim_C6 (seriesId : String) (data : SeriesData)
    (h : data.items = []) :
    checkFinish seriesId data = { status := 404, body := .text "No entries found" }
    ∧ ∀ f : Feed, (checkFinish seriesId data).body ≠ .rss2 f := by
  have hfin : checkFinish seriesId data
      = { status := 404, body := .text "No entries found" } := by
    unfold checkFinish
    rw [if_pos (by simp [buildEntries, h])]
  refine ⟨hfin, fun f hcontra => ?_⟩
  rw [hfin] at hcontra
  exact ResponseBody.noConfusion hcontra

/-- Witness for C6 on an empty concrete payload. -/
theorem claim_C6_witness :
    checkFinish "s" (sampleData 0 [])
      = { status := 404, body := .text "No entries found" } :=
  (claim_C6 "s" (sampleData 0 []) rfl).1

/-- C7 (code bug at the cited source): with no seriesId query parameter
and no fallback configuration value, `check` throws the missing-series-id
error, but the top-level catch the claim cites
(src/unnamed/part_001 lines 194-201) invokes the async `check` without
await, so the rejection escapes the try/catch and no response is sent at
all — not the claimed 500. The awaited revision (src/index.ts lines
221-226, modelled by `scrape`) does send the 500 with the generic body,
showing the claim describes the intent and the cited code drops the
await. -/
theorem claim_C7 :
    (check (fun _ => .ok "b")
        (fun _ => sampleDoc none (sampleData 0 [])) none none).1
      = .error .noSeriesId
    ∧ scrapeUnawaited (fun _ => .ok "b")
        (fun _ => sampleDoc none (sampleData 0 [])) none none
      = (none, [])
    ∧ (scrape (fun _ => .ok "b")
        (fun _ => sampleDoc none (sampleData 0 [])) none none).1
      = { status := 500, body := .text "something went wrong. please check logs" } :=
  ⟨rfl, rfl, rfl⟩

/-- Any error propagating out of `check` makes `scrape` answer with the
generic 500 response. -/
theorem scrape_fst_of_error (fetchFn : String → Except JsError String)
    (loadFn : String → Document) (q env : Option String) (e : JsError)
    (he : (check fetchFn loadFn q env).1 = .error e) :
    (scrape fetchFn loadFn q env).1 = genericErrorResponse := by
  unfold scrape
  rcases hc : check fetchFn loadFn q env with ⟨r, urls⟩
  rw [hc] at he
  simp only at he
  rw [he]

/-- C8: a fetch failure (network error or, per the Fetcher contract,
non-success HTTP response) on either GET propagates and is fatal for the
request: `check` ends with that error, the fetch trace shows each URL was
requested exactly once (no retry), and the request surfaces the 500
response. -/
theorem claim_C8 (fetchFn : String → Except JsError String)
    (loadFn : String → Document) (q env : Option String)
    (sid : String) (e : JsError)
    (hsid : nullishCoalesce q env = some sid) (hne : sid ≠ "") :
    (fetchFn (seriesPageUrl sid) = .error e →
      check fetchFn loadFn q env = (.error e, [seriesPageUrl sid])
      ∧ (scrape fetchFn loadFn q env).1 = genericErrorResponse)
    ∧ ∀ body data0,
        fetchFn (seriesPageUrl sid) = .ok body →
        nvapiFirstData (loadFn body) = .ok data0 →
        100 < data0.totalCount →
        fetchFn (rePageUrl (extractCanonicalUrl (loadFn body))
            (lastPageNo data0.totalCount)) = .error e →
        check fetchFn loadFn q env
          = (.error e, [seriesPageUrl sid,
              rePageUrl (extractCanonicalUrl (loadFn body)) (lastPageNo data0.totalCount)])
        ∧ (scrape fetchFn loadFn q env).1 = genericErrorResponse := by
  constructor
  · intro herr
    have hcheck : check fetchFn loadFn q env = (.error e, [seriesPageUrl sid]) := by
      unfold check
      rw [hsid]
      simp only [hne, if_false, herr]
    exact ⟨hcheck, scrape_fst_of_error fetchFn loadFn q env e (by rw [hcheck])⟩
  · intro body data0 hfetch hparse hbig herr2
    have hcheck : check fetchFn loadFn q env
        = (.error e, [seriesPageUrl sid,
            rePageUrl (extractCanonicalUrl (loadFn body)) (lastPageNo data0.totalCount)]) := by
      rw [check_eq_of_parsed fetchFn loadFn q env sid body data0 hsid hne hfetch hparse]
      rw [if_pos hbig, herr2]
    exact ⟨hcheck, scrape_fst_of_error fetchFn loadFn q env e (by rw [hcheck])⟩

/-- Witness for C8: a failing first fetch (HTTP 503 per the Fetcher
contract) aborts the request after exactly one fetch. -/
theorem claim_C8_witness :
    check (fun _ => .error (.fetchHttpError 503))
        (fun _ => sampleDoc none (sampleData 0 [])) (some "s") none
      = (.error (.fetchHttpError 503), [seriesPageUrl "s"]) :=
  ((claim_C8 (fun _ => .error (.fetchHttpError 503))
      (fun _ => sampleDoc none (sampleData 0 [])) (some "s") none
      "s" (.fetchHttpError 503) rfl (by decide)).1 rfl).1

/-- C9: absence of the canonical URL is tolerated by parsing (with
totalCount ≤ 100 the request completes normally), but the second-page URL
then stringifies `undefined`, so when a refetch is required
(totalCount > 100) the refetch targets the unresolvable URL
`undefined?page=N` and, the fetch of that URL failing, the request fails. -/
theorem claim_C9 (fetchFn : String → Except JsError String)
    (loadFn : String → Document) (q env : Option String)
    (sid body : String) (data0 : SeriesData)
    (hsid : nullishCoalesce q env = some sid) (hne : sid ≠ "")
    (hfetch : fetchFn (seriesPageUrl sid) = .ok body)
    (hparse : nvapiFirstData (loadFn body) = .ok data0)
    (hcanon : extractCanonicalUrl (loadFn body) = none) :
    (data0.totalCount ≤ 100 →
      check fetchFn loadFn q env = (.ok (checkFinish sid data0), [seriesPageUrl sid]))
    ∧ (∀ n : Nat, rePageUrl none n = "undefined?page=" ++ toString n)
    ∧ (100 < data0.totalCount →
      (check fetchFn loadFn q env).2
          = [seriesPageUrl sid, rePageUrl none (lastPageNo data0.totalCount)]
      ∧ ∀ e : JsError,
          fetchFn (rePageUrl none (lastPageNo data0.totalCount)) = .error e →
          check fetchFn loadFn q env
            = (.error e, [seriesPageUrl sid, rePageUrl none (lastPageNo data0.totalCount)])
          ∧ (scrape fetchFn loadFn q env).1 = genericErrorResponse) := by
  refine ⟨?_, fun n => rfl, ?_⟩
  · intro hle
    rw [check_eq_of_parsed fetchFn loadFn q env sid body data0 hsid hne hfetch hparse]
    rw [if_neg (by omega)]
  · intro hbig
    constructor
    · rw [check_eq_of_parsed fetchFn loadFn q env sid body data0 hsid hne hfetch hparse]
      rw [if_pos hbig, hcanon]
      split
      · rfl
      · split <;> rfl
    · intro e herr2
      have hcheck : check fetchFn loadFn q env
          = (.error e, [seriesPageUrl sid, rePageUrl none (lastPageNo data0.totalCount)]) := by
        rw [check_eq_of_parsed fetchFn loadFn q env sid body data0 hsid hne hfetch hparse]
        rw [if_pos hbig, hcanon, herr2]
      exact ⟨hcheck, scrape_fst_of_error fetchFn loadFn q env e (by rw [hcheck])⟩

/-- Witness for C9: a 250-item series whose page lacks the canonical link
re-fetches `undefined?page=3`, whose fetch fails and aborts the run. -/
theorem claim_C9_witness :
    check (fun u => if u = seriesPageUrl "s" then .ok "b" else .error .fetchNetworkError)
        (fun _ => sampleDoc none (sampleData 250 [sampleItem 1])) (some "s") none
      = (.error .fetchNetworkError, [seriesPageUrl "s", rePageUrl none 3]) :=
  (((claim_C9 (fun u => if u = seriesPageUrl "s" then .ok "b" else .error .fetchNetworkError)
      (fun _ => sampleDoc none (sampleData 250 [sampleItem 1])) (some "s") none
      "s" "b" (sampleData 250 [sampleItem 1])
      rfl (by decide) rfl rfl rfl).2.2 (by decide)).2 .fetchNetworkError rfl).1

/-- C10: series-identifier resolution uses nullish coalescing, so a
present-but-empty seriesId query parameter does not fall back to the
environment value even when that value is set; being falsy it triggers the
missing-series-id error and the request ends with the 500 response. -/
theorem claim_C10 (fetchFn : String → Except JsError String)
    (loadFn : String → Document) (envValue : String) :
    nullishCoalesce (some "") (some envValue) = some ""
    ∧ (check fetchFn loadFn (some "") (some envValue)).1 = .error .noSeriesId
    ∧ (scrape fetchFn loadFn (some "") (some envValue)).1
        = { status := 500, body := .text "something went wrong. please check logs" } :=
  ⟨rfl, rfl, rfl⟩

end NiconicoSeriesFeed
